import Mathlib

/-!
Shallow embedding of the trading-bot client (`bot.py`): request signing
(HMAC-SHA256 over a URL-encoded query string), the signed GET/POST transport
wrappers, the two trading operations (`get_balance`, `place_order`) and one
iteration of the interactive menu loop.

Machine integers are modelled as `Nat` with explicit reduction modulo `2^32`
where the source's 32-bit arithmetic overflows.  Python `float` values are
modelled as exact rationals (`Rat`); the claims under study depend on which
values are selected and serialized, not on binary floating-point rounding.
Fallible Python code (exceptions) is modelled with `Except`.
-/

/-- Python exceptions that the modelled code paths can raise. -/
inductive PyExc where
  | attributeError
  | typeError
  | valueError
  | eofError
deriving DecidableEq, Repr

/-- A Python value as it occurs in outbound request parameter dictionaries:
strings, ints, floats (exact rationals) and `None`. -/
inductive PyVal where
  | str (s : String)
  | int (n : Int)
  | float (q : Rat)
  | none
deriving DecidableEq, Repr

/-- A JSON value as returned by the exchange and parsed by `r.json()`.
The subset (strings, numbers, arrays, objects) covers every response shape
the claims mention. -/
inductive JSON where
  | str (s : String)
  | num (q : Rat)
  | arr (l : List JSON)
  | obj (kvs : List (String × JSON))
deriving Repr

/-- An ordered string-keyed dictionary, as Python `dict` preserves insertion
order.  Request parameter sets are `Dict`s. -/
abbrev Dict := List (String × PyVal)

/-- First value bound to key `k`, scanning left to right (Python dicts never
hold a duplicate key, so this is the unique binding). -/
def dlookup {α : Type} : List (String × α) → String → Option α
  | [], _ => Option.none
  | (k', v) :: rest, k => if k' = k then some v else dlookup rest k

/-- The key sequence of a dictionary, in insertion order. -/
def keys {α : Type} (d : List (String × α)) : List String :=
  d.map Prod.fst

/-- Python `d[k] = v`: overwrite in place when `k` is already bound (keeping
its position), append a new binding otherwise. -/
def dictSet {α : Type} (d : List (String × α)) (k : String) (v : α) :
    List (String × α) :=
  if (dlookup d k).isSome then
    d.map (fun p => if p.1 = k then (k, v) else p)
  else
    d ++ [(k, v)]

/-! ## Byte-level primitives (UTF-8, SHA-256, HMAC, hex) -/

/-- UTF-8 encoding of one code point, as a list of byte values. -/
def utf8EncodeCharNat (c : Nat) : List Nat :=
  if c < 128 then [c]
  else if c < 2048 then
    [192 ||| (c >>> 6), 128 ||| (c &&& 63)]
  else if c < 65536 then
    [224 ||| (c >>> 12), 128 ||| ((c >>> 6) &&& 63), 128 ||| (c &&& 63)]
  else
    [240 ||| (c >>> 18), 128 ||| ((c >>> 12) &&& 63),
     128 ||| ((c >>> 6) &&& 63), 128 ||| (c &&& 63)]

/-- The UTF-8 bytes of a string (Python `s.encode()`). -/
def strBytes (s : String) : List Nat :=
  (s.data.map (fun c => utf8EncodeCharNat c.toNat)).flatten

/-- The 32-bit modulus. -/
def M32 : Nat := 4294967296

/-- Addition modulo `2^32`. -/
def add32 (a b : Nat) : Nat := (a + b) % M32

/-- 32-bit right rotation. -/
def rotr (n x : Nat) : Nat := ((x >>> n) ||| (x <<< (32 - n))) % M32

/-- SHA-256 big sigma-0. -/
def bSig0 (x : Nat) : Nat := rotr 2 x ^^^ rotr 13 x ^^^ rotr 22 x

/-- SHA-256 big sigma-1. -/
def bSig1 (x : Nat) : Nat := rotr 6 x ^^^ rotr 11 x ^^^ rotr 25 x

/-- SHA-256 small sigma-0. -/
def sSig0 (x : Nat) : Nat := rotr 7 x ^^^ rotr 18 x ^^^ (x >>> 3)

/-- SHA-256 small sigma-1. -/
def sSig1 (x : Nat) : Nat := rotr 17 x ^^^ rotr 19 x ^^^ (x >>> 10)

/-- SHA-256 choice function. -/
def shaCh (e f g : Nat) : Nat := (e &&& f) ^^^ ((e ^^^ 4294967295) &&& g)

/-- SHA-256 majority function. -/
def shaMaj (a b c : Nat) : Nat := (a &&& b) ^^^ (a &&& c) ^^^ (b &&& c)

/-- The 64 SHA-256 round constants. -/
def sha256K : List Nat :=
  [1116352408, 1899447441, 3049323471, 3921009573,
   961987163, 1508970993, 2453635748, 2870763221,
   3624381080, 310598401, 607225278, 1426881987,
   1925078388, 2162078206, 2614888103, 3248222580,
   3835390401, 4022224774, 264347078, 604807628,
   770255983, 1249150122, 1555081692, 1996064986,
   2554220882, 2821834349, 2952996808, 3210313671,
   3336571891, 3584528711, 113926993, 338241895,
   666307205, 773529912, 1294757372, 1396182291,
   1695183700, 1986661051, 2177026350, 2456956037,
   2730485921, 2820302411, 3259730800, 3345764771,
   3516065817, 3600352804, 4094571909, 275423344,
   430227734, 506948616, 659060556, 883997877,
   958139571, 1322822218, 1537002063, 1747873779,
   1955562222, 2024104815, 2227730452, 2361852424,
   2428436474, 2756734187, 3204031479, 3329325298]

/-- The eight-word SHA-256 working state. -/
structure Hash8 where
  a : Nat
  b : Nat
  c : Nat
  d : Nat
  e : Nat
  f : Nat
  g : Nat
  h : Nat
deriving DecidableEq, Repr

/-- The SHA-256 initial hash value. -/
def sha256Init : Hash8 :=
  ⟨1779033703, 3144134277, 1013904242, 2773480762,
   1359893119, 2600822924, 528734635, 1541459225⟩

/-- One SHA-256 round, consuming a (schedule word, round constant) pair. -/
def sha256Round (st : Hash8) (wk : Nat × Nat) : Hash8 :=
  let t1 := (st.h + bSig1 st.e + shaCh st.e st.f st.g + wk.2 + wk.1) % M32
  let t2 := (bSig0 st.a + shaMaj st.a st.b st.c) % M32
  ⟨(t1 + t2) % M32, st.a, st.b, st.c, (st.d + t1) % M32, st.e, st.f, st.g⟩

/-- Extend a 16-word block to the 64-word message schedule. -/
def sha256Schedule (w16 : List Nat) : List Nat :=
  (List.range 48).foldl
    (fun w _ =>
      let n := w.length
      w ++ [(sSig1 (w.getD (n - 2) 0) + w.getD (n - 7) 0 +
             sSig0 (w.getD (n - 15) 0) + w.getD (n - 16) 0) % M32])
    w16

/-- Split a list into consecutive chunks of length `n` (fuel-driven). -/
def chunksGo {α : Type} (n : Nat) : Nat → List α → List (List α)
  | _, [] => []
  | 0, _ => []
  | fuel + 1, l => l.take n :: chunksGo n fuel (l.drop n)

/-- Split a list into consecutive chunks of length `n`. -/
def chunksOf {α : Type} (n : Nat) (l : List α) : List (List α) :=
  chunksGo n l.length l

/-- Big-endian bytes of `val`, `count` bytes wide. -/
def beBytes (count val : Nat) : List Nat :=
  (List.range count).map (fun i => (val >>> (8 * (count - 1 - i))) &&& 255)

/-- The four big-endian bytes of a 32-bit word. -/
def wordBytes (w : Nat) : List Nat :=
  [(w >>> 24) &&& 255, (w >>> 16) &&& 255, (w >>> 8) &&& 255, w &&& 255]

/-- SHA-256 message padding: `0x80`, zeros, then the 64-bit bit length. -/
def sha256Pad (msg : List Nat) : List Nat :=
  let len := msg.length
  msg ++ [128] ++ List.replicate ((64 - ((len + 9) % 64)) % 64) 0 ++
    beBytes 8 ((8 * len) % 18446744073709551616)

/-- Interpret a 4-byte chunk as a big-endian 32-bit word. -/
def bytesToWord (c : List Nat) : Nat :=
  c.foldl (fun acc b => acc * 256 + b) 0

/-- Compress one 64-byte block into the running state. -/
def sha256Compress (st : Hash8) (block : List Nat) : Hash8 :=
  let w16 := (chunksOf 4 block).map bytesToWord
  let t := ((sha256Schedule w16).zip sha256K).foldl sha256Round st
  ⟨add32 st.a t.a, add32 st.b t.b, add32 st.c t.c, add32 st.d t.d,
   add32 st.e t.e, add32 st.f t.f, add32 st.g t.g, add32 st.h t.h⟩

/-- The 32 digest bytes of a final SHA-256 state. -/
def digestBytes (st : Hash8) : List Nat :=
  wordBytes st.a ++ wordBytes st.b ++ wordBytes st.c ++ wordBytes st.d ++
  wordBytes st.e ++ wordBytes st.f ++ wordBytes st.g ++ wordBytes st.h

/-- SHA-256 of a byte sequence. -/
def sha256 (msg : List Nat) : List Nat :=
  digestBytes ((chunksOf 64 (sha256Pad msg)).foldl sha256Compress sha256Init)

/-- HMAC-SHA256 (`hmac.new(key, msg, hashlib.sha256)`), block size 64. -/
def hmacSha256 (key msg : List Nat) : List Nat :=
  let k0 := if key.length > 64 then sha256 key else key
  let kp := k0 ++ List.replicate (64 - k0.length) 0
  sha256 ((kp.map (fun b => b ^^^ 92)) ++
          sha256 ((kp.map (fun b => b ^^^ 54)) ++ msg))

/-- The sixteen lowercase hexadecimal digit characters. -/
def hexDigits : List Char :=
  "0123456789abcdef".data

/-- The lowercase hex digit for a value (out-of-range values fall back
to the digit 0; digest bytes are always in range). -/
def hexDigitChar (n : Nat) : Char :=
  hexDigits.getD n '0'

/-- The lowercase two-digit-per-byte hex characters of a byte sequence. -/
def hexChars : List Nat → List Char
  | [] => []
  | b :: bs => hexDigitChar (b / 16) :: hexDigitChar (b % 16) :: hexChars bs

/-- Lowercase hex encoding (`.hexdigest()`). -/
def toHexLower (bs : List Nat) : String :=
  ⟨hexChars bs⟩

/-! ## Python string coercion (`str(...)`) and `urllib.parse.urlencode` -/

/-- Decimal digit characters of a positive number, most significant first
(fuel-driven; `fuel = n` always suffices). -/
def natStrAux : Nat → Nat → List Char
  | 0, _ => []
  | fuel + 1, n =>
    if n = 0 then [] else natStrAux fuel (n / 10) ++ [Char.ofNat (48 + n % 10)]

/-- Decimal string of a natural number. -/
def natStr (n : Nat) : String :=
  if n = 0 then "0" else ⟨natStrAux n n⟩

/-- Python `str` of an int. -/
def intStr (n : Int) : String :=
  if n < 0 then "-" ++ natStr n.natAbs else natStr n.natAbs

/-- Python `str` of a float, for floats whose value is a terminating decimal
(every float the program handles is one): the exact decimal expansion, with
a trailing `.0` on integral values, matching Python's shortest round-trip
repr on such values.  Non-terminating rationals (unreachable through the
modelled code) are rendered as a fraction. -/
def floatStr (q : Rat) : String :=
  let sign := if q < 0 then "-" else ""
  let a := |q|
  match (List.range 65).find? (fun k => (a * 10 ^ k).den = 1) with
  | some 0 => sign ++ natStr a.num.natAbs ++ ".0"
  | some k =>
    let m := natStr (a * 10 ^ k).num.natAbs
    let padded := List.replicate (k + 1 - m.length) '0' ++ m.data
    sign ++ ⟨padded.take (padded.length - k)⟩ ++ "." ++ ⟨padded.drop (padded.length - k)⟩
  | Option.none => sign ++ natStr a.num.natAbs ++ "/" ++ natStr a.den

/-- Python `str(...)` applied to a parameter value, as `urlencode` does. -/
def pyStr : PyVal → String
  | .str s => s
  | .int n => intStr n
  | .float q => floatStr q
  | .none => "None"

/-- Bytes left unescaped by `urllib.parse.quote_plus`: ASCII alphanumerics
and `_ . - ~`. -/
def safeByte (b : Nat) : Bool :=
  (48 ≤ b && b ≤ 57) || (65 ≤ b && b ≤ 90) || (97 ≤ b && b ≤ 122) ||
  b == 45 || b == 46 || b == 95 || b == 126

/-- The uppercase hex digit for a value below 16. -/
def hexDigitUpper (n : Nat) : Char :=
  "0123456789ABCDEF".data.getD n '0'

/-- `urllib.parse.quote_plus`: UTF-8 encode, keep safe bytes, turn spaces
into `+`, percent-escape the rest with uppercase hex. -/
def quotePlus (s : String) : String :=
  ⟨((strBytes s).map (fun b =>
      if safeByte b then [Char.ofNat b]
      else if b = 32 then ['+']
      else ['%', hexDigitUpper (b / 16), hexDigitUpper (b % 16)])).flatten⟩

/-- `urllib.parse.urlencode`: `k=v` pairs in insertion order joined by `&`,
keys and stringified values escaped by `quote_plus`. -/
def urlencode (params : Dict) : String :=
  String.intercalate "&"
    (params.map (fun kv => quotePlus kv.1 ++ "=" ++ quotePlus (pyStr kv.2)))

/-! ## The signed HTTP client (`BasicBot`) -/

/-- `BasicBot._sign`: the lowercase hex HMAC-SHA256 digest of the URL-encoded
query string of `params`, keyed by the API secret. -/
def _sign (apiSecret : String) (params : Dict) : String :=
  toHexLower (hmacSha256 (strBytes apiSecret) (strBytes (urlencode params)))

/-- HTTP verb of an outbound request. -/
inductive Verb where
  | GET
  | POST
deriving DecidableEq, Repr

/-- Everything `requests.post` / `requests.get` is handed: verb, URL, the
query parameters, the `X-MBX-APIKEY` header value and the timeout. -/
structure HttpReq where
  verb : Verb
  url : String
  params : Dict
  apiKeyHeader : String
  timeoutSeconds : Nat
deriving DecidableEq, Repr

/-- What the HTTP library produces for one request: a status plus parsed
JSON body, or a raised `requests.RequestException` carrying a message.
Modelling it as an oracle input makes the wrappers total functions. -/
inductive TransportResult where
  | response (status : Nat) (body : JSON)
  | requestException (msg : String)

/-- Observable outcome of one wrapper call: the request that was sent,
whether an error log line was emitted, and the value returned to the
caller. -/
structure CallResult where
  request : HttpReq
  loggedError : Bool
  returned : JSON

/-- `BasicBot._post`: insert `timestamp`, insert `signature` computed over
the parameter set as it stands (timestamp included), send to
`base_url + path` with the API-key header and a 10 s timeout; log an error
on a non-200 status but return the parsed body either way; catch a
transport exception and return `{"error": str(e)}` instead of raising. -/
def _post (apiKey apiSecret baseUrl path : String) (params : Dict)
    (now : Int) (transport : TransportResult) : CallResult :=
  let p1 := dictSet params "timestamp" (PyVal.int now)
  let p2 := dictSet p1 "signature" (PyVal.str (_sign apiSecret p1))
  let req : HttpReq := ⟨Verb.POST, baseUrl ++ path, p2, apiKey, 10⟩
  match transport with
  | .response st body => ⟨req, st != 200, body⟩
  | .requestException m => ⟨req, true, JSON.obj [("error", JSON.str m)]⟩

/-- `BasicBot._get`: same as `_post` with verb GET; an omitted parameter
set (`params=None`) becomes the empty dictionary. -/
def _get (apiKey apiSecret baseUrl path : String) (paramsOpt : Option Dict)
    (now : Int) (transport : TransportResult) : CallResult :=
  let params := paramsOpt.getD []
  let p1 := dictSet params "timestamp" (PyVal.int now)
  let p2 := dictSet p1 "signature" (PyVal.str (_sign apiSecret p1))
  let req : HttpReq := ⟨Verb.GET, baseUrl ++ path, p2, apiKey, 10⟩
  match transport with
  | .response st body => ⟨req, st != 200, body⟩
  | .requestException m => ⟨req, true, JSON.obj [("error", JSON.str m)]⟩

/-! ## Trading operations -/

/-- Python `s.strip()`: drop leading and trailing whitespace. -/
def pyStrip (s : String) : String :=
  ⟨((s.data.dropWhile Char.isWhitespace).reverse.dropWhile Char.isWhitespace).reverse⟩

/-- Python `s.upper()` (ASCII case mapping, which covers the menu inputs). -/
def pyUpper (s : String) : String :=
  ⟨s.data.map Char.toUpper⟩

/-- Python `float(str)` on the common literal forms the program meets:
optional surrounding whitespace, optional sign, digits with an optional
single decimal point (at least one digit present).  Exponent, `inf` and
`nan` forms never arise here and are not modelled. -/
def digitsVal (ds : List Char) : Nat :=
  ds.foldl (fun a c => a * 10 + (c.toNat - 48)) 0

/-- Parse a decimal string to an exact rational, `Option.none` on failure
(Python raises `ValueError`). -/
def pyParseFloat (s : String) : Option Rat :=
  let t := (pyStrip s).data
  let neg : Bool := t.head? = some '-'
  let t := if t.head? = some '-' || t.head? = some '+' then t.tail else t
  let intPart := t.takeWhile Char.isDigit
  let rest := t.dropWhile Char.isDigit
  match rest with
  | [] =>
    if intPart.isEmpty then Option.none
    else
      let m := mkRat (digitsVal intPart) 1
      some (if neg then -m else m)
  | '.' :: fr =>
    let fracPart := fr.takeWhile Char.isDigit
    let rest2 := fr.dropWhile Char.isDigit
    if rest2.isEmpty && !(intPart.isEmpty && fracPart.isEmpty) then
      let m := mkRat (digitsVal intPart * 10 ^ fracPart.length + digitsVal fracPart)
                 (10 ^ fracPart.length)
      some (if neg then -m else m)
    else Option.none
  | _ => Option.none

/-- Python `float(x)` on a JSON value: numbers pass through, strings are
parsed (`ValueError` on failure), anything else is a `TypeError`. -/
def pyFloat : JSON → Except PyExc Rat
  | .num q => .ok q
  | .str s =>
    match pyParseFloat s with
    | some q => .ok q
    | Option.none => .error PyExc.valueError
  | _ => .error PyExc.typeError

/-- Python `for entry in data` over a JSON value: lists yield elements,
dicts yield their keys (as strings), strings yield one-character strings,
numbers raise `TypeError`. -/
def pyIterate : JSON → Except PyExc (List JSON)
  | .arr l => .ok l
  | .obj kvs => .ok (kvs.map (fun kv => JSON.str kv.1))
  | .str s => .ok (s.data.map (fun c => JSON.str (String.singleton c)))
  | .num _ => .error PyExc.typeError

/-- The scan loop of `get_balance`: find the first entry whose `asset`
field equals the requested asset and return `float(entry.get('withdrawAvailable', 0))`;
an entry that is not a dict makes `entry.get` raise `AttributeError`
(this is what happens when the response is a dict, e.g. the transport
error sentinel, whose iteration yields plain strings); fall through to
`0.0`. -/
def balLoop (asset : String) : List JSON → Except PyExc Rat
  | [] => .ok 0
  | entry :: rest =>
    match entry with
    | .obj kvs =>
      match dlookup kvs "asset" with
      | some (JSON.str a) =>
        if a = asset then pyFloat ((dlookup kvs "withdrawAvailable").getD (JSON.num 0))
        else balLoop asset rest
      | _ => balLoop asset rest
    | _ => .error PyExc.attributeError

/-- `BasicBot.get_balance`: signed GET on `/fapi/v2/balance` with no
business parameters, then scan the returned value for the asset. -/
def get_balance (apiKey apiSecret baseUrl asset : String) (now : Int)
    (transport : TransportResult) : Except PyExc Rat :=
  match pyIterate (_get apiKey apiSecret baseUrl "/fapi/v2/balance" Option.none now transport).returned with
  | .error e => .error e
  | .ok entries => balLoop asset entries

/-- The parameter set `BasicBot.place_order` assembles before calling
`_post`: base keys symbol/side/type/quantity always; LIMIT adds `price`
and `timeInForce`; STOP adds `stopPrice`, `price` and `timeInForce`.
An absent optional price argument is Python `None` and is stored as such. -/
def placeOrderParams (symbol side order_type : String) (quantity : Rat)
    (price stop_price : Option Rat) : Dict :=
  let pv : Option Rat → PyVal := fun o =>
    match o with
    | some q => PyVal.float q
    | Option.none => PyVal.none
  let params : Dict :=
    [("symbol", PyVal.str symbol), ("side", PyVal.str side),
     ("type", PyVal.str order_type), ("quantity", PyVal.float quantity)]
  let params := if order_type = "LIMIT" then
      dictSet (dictSet params "price" (pv price)) "timeInForce" (PyVal.str "GTC")
    else params
  let params := if order_type = "STOP" then
      dictSet (dictSet (dictSet params "stopPrice" (pv stop_price))
        "price" (pv price)) "timeInForce" (PyVal.str "GTC")
    else params
  params

/-- `BasicBot.place_order`: assemble the parameters and POST them to
`/fapi/v1/order`. -/
def place_order (apiKey apiSecret baseUrl : String)
    (symbol side order_type : String) (quantity : Rat)
    (price stop_price : Option Rat) (now : Int)
    (transport : TransportResult) : CallResult :=
  _post apiKey apiSecret baseUrl "/fapi/v1/order"
    (placeOrderParams symbol side order_type quantity price stop_price)
    now transport

/-! ## One iteration of the interactive menu loop -/

/-- The observable effects of one pass through the `while True` body of
`BasicBot.menu`: how many further `input()` reads were consumed, how many
balance fetches were made, the parameter set of any order placed, whether
the invalid-choice message was printed, and whether the loop exited. -/
structure MenuEffects where
  inputsConsumed : Nat
  balanceFetches : Nat
  orderPlaced : Option Dict
  printedInvalid : Bool
  exited : Bool
deriving DecidableEq, Repr

/-- One iteration of `BasicBot.menu`: dispatch on the stripped choice.
Choice 5 exits; choice 1 fetches and prints the balance; every other
choice first fetches the balance, then reads symbol, side and quantity,
and only then dispatches on 2/3/4, printing `Invalid choice.` otherwise.
`balanceOutcome` is the oracle result of `get_balance` (an exception there
propagates); `inputs` is the remaining standard-input lines (running out
raises `EOFError`). -/
def menuIter (choice : String) (inputs : List String)
    (balanceOutcome : Except PyExc Rat) : Except PyExc MenuEffects :=
  let c := pyStrip choice
  if c = "5" then .ok ⟨0, 0, Option.none, false, true⟩
  else if c = "1" then
    match balanceOutcome with
    | .error e => .error e
    | .ok _ => .ok ⟨0, 1, Option.none, false, false⟩
  else
    match balanceOutcome with
    | .error e => .error e
    | .ok _ =>
      match inputs with
      | i0 :: i1 :: i2 :: rest =>
        let symbol := pyUpper (pyStrip i0)
        let side := pyUpper (pyStrip i1)
        match pyParseFloat (pyStrip i2) with
        | Option.none => .error PyExc.valueError
        | some qty =>
          if c = "2" then
            .ok ⟨3, 1, some (placeOrderParams symbol side "MARKET" qty Option.none Option.none), false, false⟩
          else if c = "3" then
            match rest with
            | p0 :: _ =>
              match pyParseFloat (pyStrip p0) with
              | Option.none => .error PyExc.valueError
              | some price =>
                .ok ⟨4, 1, some (placeOrderParams symbol side "LIMIT" qty (some price) Option.none), false, false⟩
            | [] => .error PyExc.eofError
          else if c = "4" then
            match rest with
            | s0 :: p0 :: _ =>
              match pyParseFloat (pyStrip s0) with
              | Option.none => .error PyExc.valueError
              | some stopPrice =>
                match pyParseFloat (pyStrip p0) with
                | Option.none => .error PyExc.valueError
                | some price =>
                  .ok ⟨5, 1, some (placeOrderParams symbol side "STOP" qty (some price) (some stopPrice)), false, false⟩
            | _ => .error PyExc.eofError
          else
            .ok ⟨3, 1, Option.none, true, false⟩
      | _ => .error PyExc.eofError

deriving instance DecidableEq for Except

/-! ## Dictionary lemmas -/

theorem dlookup_eq_none_iff {α : Type} {d : List (String × α)} {k : String} :
    dlookup d k = Option.none ↔ k ∉ keys d := by
  induction d with
  | nil => simp [dlookup, keys]
  | cons p rest ih =>
    obtain ⟨k', v⟩ := p
    by_cases h : k' = k
    · subst h
      simp [dlookup, keys]
    · have h2 : ¬k = k' := fun hh => h hh.symm
      simp [dlookup, keys, h, h2, ih]

theorem dlookup_isSome_iff {α : Type} {d : List (String × α)} {k : String} :
    (dlookup d k).isSome = true ↔ k ∈ keys d := by
  constructor
  · intro h
    by_contra hk
    rw [dlookup_eq_none_iff.mpr hk] at h
    simp at h
  · intro h
    cases hd : dlookup d k with
    | some w => rfl
    | none => exact absurd h (dlookup_eq_none_iff.mp hd)

theorem keys_dictSet_of_none {α : Type} {d : List (String × α)} {k : String}
    (v : α) (h : dlookup d k = Option.none) :
    keys (dictSet d k v) = keys d ++ [k] := by
  simp [dictSet, h, keys]

theorem keys_dictSet_of_some {α : Type} {d : List (String × α)} {k : String}
    (v : α) (h : (dlookup d k).isSome = true) :
    keys (dictSet d k v) = keys d := by
  simp only [dictSet, h, if_true, keys, List.map_map]
  apply List.map_congr_left
  intro p _
  by_cases hp : p.1 = k
  · simp [hp]
  · simp [hp]

theorem dlookup_append {α : Type} (d e : List (String × α)) (k : String) :
    dlookup (d ++ e) k =
      match dlookup d k with
      | some v => some v
      | Option.none => dlookup e k := by
  induction d with
  | nil => simp [dlookup]
  | cons p rest ih =>
    obtain ⟨k', v⟩ := p
    by_cases h : k' = k
    · subst h
      simp [dlookup]
    · simp [dlookup, h, ih]

theorem dlookup_mapOverwrite_self {α : Type} (v : α) (d : List (String × α))
    (k : String) (h : (dlookup d k).isSome = true) :
    dlookup (d.map (fun p => if p.1 = k then (k, v) else p)) k = some v := by
  induction d with
  | nil => simp [dlookup] at h
  | cons p rest ih =>
    obtain ⟨k', w⟩ := p
    by_cases hk : k' = k
    · subst hk
      rw [List.map_cons, if_pos (show ((k', w) : String × α).1 = k' from rfl)]
      simp [dlookup]
    · simp only [dlookup, hk, if_false] at h
      rw [List.map_cons, if_neg hk]
      simp [dlookup, hk, ih h]

theorem dlookup_mapOverwrite_ne {α : Type} (v : α) (d : List (String × α))
    {k k' : String} (h : k' ≠ k) :
    dlookup (d.map (fun p => if p.1 = k then (k, v) else p)) k' = dlookup d k' := by
  induction d with
  | nil => simp
  | cons p rest ih =>
    obtain ⟨k'', w⟩ := p
    by_cases hk : k'' = k
    · subst hk
      have h2 : ¬k'' = k' := fun hh => h hh.symm
      rw [List.map_cons, if_pos (show ((k'', w) : String × α).1 = k'' from rfl)]
      simp [dlookup, h2, ih]
    · rw [List.map_cons, if_neg hk]
      simp [dlookup, hk, ih]

theorem dlookup_dictSet_self {α : Type} (d : List (String × α)) (k : String)
    (v : α) : dlookup (dictSet d k v) k = some v := by
  unfold dictSet
  cases hd : dlookup d k with
  | some w =>
    rw [if_pos (show (some w).isSome = true from rfl)]
    exact dlookup_mapOverwrite_self v d k (by rw [hd]; rfl)
  | none =>
    rw [if_neg (show ¬(Option.none : Option α).isSome = true by simp)]
    rw [dlookup_append, hd]
    simp [dlookup]

theorem dlookup_dictSet_ne {α : Type} (d : List (String × α)) {k k' : String}
    (v : α) (h : k' ≠ k) : dlookup (dictSet d k v) k' = dlookup d k' := by
  unfold dictSet
  cases hd : dlookup d k with
  | some w =>
    rw [if_pos (show (some w).isSome = true from rfl)]
    exact dlookup_mapOverwrite_ne v d h
  | none =>
    rw [if_neg (show ¬(Option.none : Option α).isSome = true by simp)]
    rw [dlookup_append]
    cases hd' : dlookup d k' with
    | some w => simp
    | none =>
      have h2 : ¬k = k' := fun hh => h hh.symm
      simp [dlookup, h2]

theorem nodup_keys_dictSet {α : Type} {d : List (String × α)} {k : String}
    (v : α) (h : (keys d).Nodup) : (keys (dictSet d k v)).Nodup := by
  cases hd : dlookup d k with
  | some w =>
    rw [keys_dictSet_of_some v (by rw [hd]; rfl)]
    exact h
  | none =>
    rw [keys_dictSet_of_none v hd]
    have hk : k ∉ keys d := dlookup_eq_none_iff.mp hd
    simp [List.nodup_append, h, hk]

/-! ## Hex digest format lemmas -/

theorem hexDigitChar_mem (n : Nat) : hexDigitChar n ∈ hexDigits := by
  unfold hexDigitChar
  rcases Nat.lt_or_ge n 16 with h | h
  · rw [List.getD_eq_getElem hexDigits '0' (by simpa [hexDigits] using h)]
    exact List.getElem_mem _
  · rw [List.getD_eq_default hexDigits '0' (by simpa [hexDigits] using h)]
    simp [hexDigits]

theorem mem_hexChars {c : Char} {bs : List Nat} (h : c ∈ hexChars bs) :
    c ∈ hexDigits := by
  induction bs with
  | nil => simp [hexChars] at h
  | cons b rest ih =>
    simp only [hexChars, List.mem_cons] at h
    rcases h with h | h | h
    · exact h ▸ hexDigitChar_mem _
    · exact h ▸ hexDigitChar_mem _
    · exact ih h

theorem length_hexChars (bs : List Nat) : (hexChars bs).length = 2 * bs.length := by
  induction bs with
  | nil => simp [hexChars]
  | cons b rest ih => simp [hexChars, ih]; omega

theorem length_digestBytes (st : Hash8) : (digestBytes st).length = 32 := by
  simp [digestBytes, wordBytes]

theorem length_sha256 (msg : List Nat) : (sha256 msg).length = 32 :=
  length_digestBytes _

theorem length_hmacSha256 (key msg : List Nat) :
    (hmacSha256 key msg).length = 32 :=
  length_sha256 _

theorem length_sign (apiSecret : String) (params : Dict) :
    (_sign apiSecret params).length = 64 := by
  show (hexChars (hmacSha256 (strBytes apiSecret) (strBytes (urlencode params)))).length = 64
  rw [length_hexChars, length_hmacSha256]

theorem sign_chars_hex (apiSecret : String) (params : Dict) :
    ∀ c ∈ (_sign apiSecret params).data, c ∈ hexDigits := by
  intro c hc
  exact mem_hexChars hc

/-! ## Outbound parameter-set helper -/

/-- Inserting `timestamp` and then `signature` into a duplicate-free
parameter set that does not yet bind `signature` yields exactly one binding
of each, with the signature bound last and the intermediate set holding
`timestamp` but not `signature`. -/
theorem dictSet_timestamp_signature_spec (params : Dict) (now : Int) (v : PyVal)
    (hnd : (keys params).Nodup) (hsig : dlookup params "signature" = Option.none) :
    (keys (dictSet (dictSet params "timestamp" (PyVal.int now)) "signature" v)).count "timestamp" = 1 ∧
    (keys (dictSet (dictSet params "timestamp" (PyVal.int now)) "signature" v)).count "signature" = 1 ∧
    dlookup (dictSet (dictSet params "timestamp" (PyVal.int now)) "signature" v) "signature" = some v ∧
    dlookup (dictSet params "timestamp" (PyVal.int now)) "timestamp" = some (PyVal.int now) ∧
    dlookup (dictSet params "timestamp" (PyVal.int now)) "signature" = Option.none := by
  have hts : dlookup (dictSet params "timestamp" (PyVal.int now)) "timestamp" =
      some (PyVal.int now) := dlookup_dictSet_self _ _ _
  have hsig1 : dlookup (dictSet params "timestamp" (PyVal.int now)) "signature" = Option.none := by
    rw [dlookup_dictSet_ne params _ (by decide : "signature" ≠ "timestamp")]
    exact hsig
  have hnd1 : (keys (dictSet params "timestamp" (PyVal.int now))).Nodup :=
    nodup_keys_dictSet _ hnd
  have hkeys : keys (dictSet (dictSet params "timestamp" (PyVal.int now)) "signature" v) =
      keys (dictSet params "timestamp" (PyVal.int now)) ++ ["signature"] :=
    keys_dictSet_of_none _ hsig1
  have hmem : "timestamp" ∈ keys (dictSet params "timestamp" (PyVal.int now)) :=
    dlookup_isSome_iff.mp (by rw [hts]; rfl)
  have hnomem : "signature" ∉ keys (dictSet params "timestamp" (PyVal.int now)) :=
    dlookup_eq_none_iff.mp hsig1
  refine ⟨?_, ?_, dlookup_dictSet_self _ _ _, hts, hsig1⟩
  · rw [hkeys, List.count_append, List.count_eq_one_of_mem hnd1 hmem]
    simp
  · rw [hkeys, List.count_append, List.count_eq_zero_of_not_mem hnomem]
    simp

/-! ## Claim theorems -/

/-- Claim C1: for every call to `_post` or `_get` (whose incoming parameter
set, as at every call site in the program, is duplicate-free and does not
yet bind `signature`), the outbound parameter set carries exactly one
`timestamp` binding and exactly one `signature` binding, and the signature
value is `_sign` applied to the parameter set that already includes
`timestamp` but does not yet include `signature`. -/
theorem outbound_sign_invariant (apiKey apiSecret baseUrl path : String) (params : Dict)
    (now : Int) (tr : TransportResult)
    (hnd : (keys params).Nodup) (hsig : dlookup params "signature" = Option.none) :
    ((keys (_post apiKey apiSecret baseUrl path params now tr).request.params).count "timestamp" = 1 ∧
     (keys (_post apiKey apiSecret baseUrl path params now tr).request.params).count "signature" = 1 ∧
     dlookup (_post apiKey apiSecret baseUrl path params now tr).request.params "signature" =
       some (PyVal.str (_sign apiSecret (dictSet params "timestamp" (PyVal.int now)))) ∧
     dlookup (dictSet params "timestamp" (PyVal.int now)) "timestamp" = some (PyVal.int now) ∧
     dlookup (dictSet params "timestamp" (PyVal.int now)) "signature" = Option.none) ∧
    ((keys (_get apiKey apiSecret baseUrl path (some params) now tr).request.params).count "timestamp" = 1 ∧
     (keys (_get apiKey apiSecret baseUrl path (some params) now tr).request.params).count "signature" = 1 ∧
     dlookup (_get apiKey apiSecret baseUrl path (some params) now tr).request.params "signature" =
       some (PyVal.str (_sign apiSecret (dictSet params "timestamp" (PyVal.int now))))) := by
  have h := dictSet_timestamp_signature_spec params now
    (PyVal.str (_sign apiSecret (dictSet params "timestamp" (PyVal.int now)))) hnd hsig
  cases tr <;>
    exact ⟨⟨h.1, h.2.1, h.2.2.1, h.2.2.2.1, h.2.2.2.2⟩, h.1, h.2.1, h.2.2.1⟩

/-- Claim C1 witness: the invariant evaluated on the order-style parameter
set `{"symbol": "BTCUSDT"}`. -/
theorem outbound_sign_invariant_witness :
    ((keys ([("symbol", PyVal.str "BTCUSDT")] : Dict)).Nodup ∧
     dlookup ([("symbol", PyVal.str "BTCUSDT")] : Dict) "signature" = Option.none) ∧
    ((keys (_post "k" "s" "https://b" "/p" [("symbol", PyVal.str "BTCUSDT")] 5 (TransportResult.response 200 (JSON.num 0))).request.params).count "timestamp" = 1 ∧
     (keys (_post "k" "s" "https://b" "/p" [("symbol", PyVal.str "BTCUSDT")] 5 (TransportResult.response 200 (JSON.num 0))).request.params).count "signature" = 1 ∧
     dlookup (_post "k" "s" "https://b" "/p" [("symbol", PyVal.str "BTCUSDT")] 5 (TransportResult.response 200 (JSON.num 0))).request.params "signature" =
       some (PyVal.str (_sign "s" (dictSet [("symbol", PyVal.str "BTCUSDT")] "timestamp" (PyVal.int 5)))) ∧
     dlookup (dictSet [("symbol", PyVal.str "BTCUSDT")] "timestamp" (PyVal.int 5)) "timestamp" = some (PyVal.int 5) ∧
     dlookup (dictSet [("symbol", PyVal.str "BTCUSDT")] "timestamp" (PyVal.int 5)) "signature" = Option.none) :=
  ⟨⟨by decide, by decide⟩,
   (outbound_sign_invariant "k" "s" "https://b" "/p" [("symbol", PyVal.str "BTCUSDT")] 5
     (TransportResult.response 200 (JSON.num 0)) (by decide) (by decide)).1⟩

set_option maxRecDepth 100000 in
/-- Claim C2: `get_balance` returns the matching entry's free/withdrawable
amount as a numeric value (123.45 for the spec's example) and 0.0 when no
entry matches, but on a malformed response — the transport-error object
`{"error": ...}` — it does NOT return 0.0: iterating the dict yields its
string keys and `entry.get` raises `AttributeError`.  This contradicts the
claim's third part; the first two parts hold. -/
theorem get_balance_eval :
    get_balance "key" "secret" "https://testnet.binancefuture.com" "USDT" 1700000000000
      (TransportResult.response 200 (JSON.arr
        [JSON.obj [("asset", JSON.str "USDT"), ("withdrawAvailable", JSON.str "123.45")]])) =
      Except.ok (mkRat 12345 100) ∧
    get_balance "key" "secret" "https://testnet.binancefuture.com" "USDT" 1700000000000
      (TransportResult.response 200 (JSON.arr
        [JSON.obj [("asset", JSON.str "BTC"), ("withdrawAvailable", JSON.str "1.0")]])) =
      Except.ok 0 ∧
    get_balance "key" "secret" "https://testnet.binancefuture.com" "USDT" 1700000000000
      (TransportResult.requestException "Connection timed out") =
      Except.error PyExc.attributeError := by
  refine ⟨?_, ?_, ?_⟩ <;> decide

/-- Claim C3: a MARKET `place_order` sends exactly the keys symbol, side,
type, quantity, timestamp, signature — no price, stopPrice or timeInForce —
even when price and stop-price arguments are supplied. -/
theorem market_order_param_keys (apiKey apiSecret baseUrl symbol side : String)
    (quantity : Rat) (price stop_price : Option Rat) (now : Int) (tr : TransportResult) :
    keys (place_order apiKey apiSecret baseUrl symbol side "MARKET" quantity price stop_price now tr).request.params =
      ["symbol", "side", "type", "quantity", "timestamp", "signature"] ∧
    dlookup (place_order apiKey apiSecret baseUrl symbol side "MARKET" quantity price stop_price now tr).request.params "price" = Option.none ∧
    dlookup (place_order apiKey apiSecret baseUrl symbol side "MARKET" quantity price stop_price now tr).request.params "stopPrice" = Option.none ∧
    dlookup (place_order apiKey apiSecret baseUrl symbol side "MARKET" quantity price stop_price now tr).request.params "timeInForce" = Option.none := by
  cases tr <;> exact ⟨rfl, rfl, rfl, rfl⟩

/-- Claim C4: a LIMIT `place_order` adds `price` and `timeInForce = "GTC"`
(and no stopPrice); a STOP `place_order` adds `stopPrice`, `price` and
`timeInForce = "GTC"`; both on top of symbol, side, type, quantity. -/
theorem limit_stop_order_params (apiKey apiSecret baseUrl symbol side : String)
    (quantity price stop_price : Rat) (now : Int) (tr : TransportResult) :
    (keys (place_order apiKey apiSecret baseUrl symbol side "LIMIT" quantity (some price) (some stop_price) now tr).request.params =
      ["symbol", "side", "type", "quantity", "price", "timeInForce", "timestamp", "signature"] ∧
     dlookup (place_order apiKey apiSecret baseUrl symbol side "LIMIT" quantity (some price) (some stop_price) now tr).request.params "price" = some (PyVal.float price) ∧
     dlookup (place_order apiKey apiSecret baseUrl symbol side "LIMIT" quantity (some price) (some stop_price) now tr).request.params "timeInForce" = some (PyVal.str "GTC") ∧
     dlookup (place_order apiKey apiSecret baseUrl symbol side "LIMIT" quantity (some price) (some stop_price) now tr).request.params "stopPrice" = Option.none) ∧
    (keys (place_order apiKey apiSecret baseUrl symbol side "STOP" quantity (some price) (some stop_price) now tr).request.params =
      ["symbol", "side", "type", "quantity", "stopPrice", "price", "timeInForce", "timestamp", "signature"] ∧
     dlookup (place_order apiKey apiSecret baseUrl symbol side "STOP" quantity (some price) (some stop_price) now tr).request.params "stopPrice" = some (PyVal.float stop_price) ∧
     dlookup (place_order apiKey apiSecret baseUrl symbol side "STOP" quantity (some price) (some stop_price) now tr).request.params "price" = some (PyVal.float price) ∧
     dlookup (place_order apiKey apiSecret baseUrl symbol side "STOP" quantity (some price) (some stop_price) now tr).request.params "timeInForce" = some (PyVal.str "GTC")) := by
  cases tr <;> exact ⟨⟨rfl, rfl, rfl, rfl⟩, rfl, rfl, rfl, rfl⟩

/-- Claim C5: when the HTTP layer raises a transport failure, `_post` and
`_get` catch it and return the object `{"error": <description>}` (and log
an error) instead of propagating the exception — they are total on the
exception oracle. -/
theorem transport_error_sentinel (apiKey apiSecret baseUrl path : String) (params : Dict)
    (now : Int) (msg : String) :
    (_post apiKey apiSecret baseUrl path params now (TransportResult.requestException msg)).returned =
      JSON.obj [("error", JSON.str msg)] ∧
    (_post apiKey apiSecret baseUrl path params now (TransportResult.requestException msg)).loggedError = true ∧
    (_get apiKey apiSecret baseUrl path (some params) now (TransportResult.requestException msg)).returned =
      JSON.obj [("error", JSON.str msg)] ∧
    (_get apiKey apiSecret baseUrl path Option.none now (TransportResult.requestException msg)).returned =
      JSON.obj [("error", JSON.str msg)] :=
  ⟨rfl, rfl, rfl, rfl⟩

/-- Claim C7: on any response whose status is not a 2xx success status,
`_post` and `_get` log an error and still return the parsed body — exactly
the value returned for a success status — raising no exception. -/
theorem non2xx_logged_and_returned (apiKey apiSecret baseUrl path : String) (params : Dict)
    (now : Int) (st : Nat) (body : JSON) (h : ¬(200 ≤ st ∧ st < 300)) :
    (_post apiKey apiSecret baseUrl path params now (TransportResult.response st body)).loggedError = true ∧
    (_post apiKey apiSecret baseUrl path params now (TransportResult.response st body)).returned = body ∧
    (_get apiKey apiSecret baseUrl path (some params) now (TransportResult.response st body)).loggedError = true ∧
    (_get apiKey apiSecret baseUrl path (some params) now (TransportResult.response st body)).returned = body ∧
    (∀ st2 body2, (_post apiKey apiSecret baseUrl path params now (TransportResult.response st2 body2)).returned = body2) := by
  have hne : st ≠ 200 := by
    rintro rfl
    exact h ⟨le_refl 200, by norm_num⟩
  refine ⟨?_, rfl, ?_, rfl, fun st2 body2 => rfl⟩
  · show (st != 200) = true
    simpa using hne
  · show (st != 200) = true
    simpa using hne

/-- Claim C7 witness: status 404 is logged as an error and its body is
returned unchanged. -/
theorem non2xx_logged_and_returned_witness :
    (¬(200 ≤ 404 ∧ 404 < 300)) ∧
    ((_post "k" "s" "https://b" "/p" [] 5 (TransportResult.response 404 (JSON.str "bad"))).loggedError = true ∧
     (_post "k" "s" "https://b" "/p" [] 5 (TransportResult.response 404 (JSON.str "bad"))).returned = JSON.str "bad" ∧
     (_get "k" "s" "https://b" "/p" (some []) 5 (TransportResult.response 404 (JSON.str "bad"))).loggedError = true ∧
     (_get "k" "s" "https://b" "/p" (some []) 5 (TransportResult.response 404 (JSON.str "bad"))).returned = JSON.str "bad") :=
  ⟨by decide,
   have h := non2xx_logged_and_returned "k" "s" "https://b" "/p" [] 5 404 (JSON.str "bad") (by decide)
   ⟨h.1, h.2.1, h.2.2.1, h.2.2.2.1⟩⟩

/-- Claim C8: on an invalid menu choice (here "7"), the loop does NOT
re-prompt untouched: it performs one balance fetch and consumes the three
order inputs (symbol, side, quantity) before printing the invalid-choice
message, though it places no order and stays in the loop.  The evaluation
contradicts the claim's no-fetch/no-input part. -/
theorem invalid_choice_side_effects :
    (("7" : String) ∉ (["1", "2", "3", "4", "5"] : List String)) ∧
    menuIter "7" ["BTCUSDT", "BUY", "0.5"] (Except.ok 100) =
      Except.ok ⟨3, 1, Option.none, true, false⟩ := by
  refine ⟨by decide, by decide⟩

/-- Claim C9: `_get` has the same contract as `_post` up to the HTTP verb:
same URL, same outbound parameters, same API-key header and timeout, and
identical logging and returned value for every transport outcome; an
omitted parameter set behaves as the empty mapping. -/
theorem get_refines_post (apiKey apiSecret baseUrl path : String) (params : Dict)
    (now : Int) (tr : TransportResult) :
    (_get apiKey apiSecret baseUrl path (some params) now tr).request =
      { (_post apiKey apiSecret baseUrl path params now tr).request with verb := Verb.GET } ∧
    (_post apiKey apiSecret baseUrl path params now tr).request.verb = Verb.POST ∧
    (_get apiKey apiSecret baseUrl path (some params) now tr).loggedError =
      (_post apiKey apiSecret baseUrl path params now tr).loggedError ∧
    (_get apiKey apiSecret baseUrl path (some params) now tr).returned =
      (_post apiKey apiSecret baseUrl path params now tr).returned ∧
    _get apiKey apiSecret baseUrl path Option.none now tr =
      _get apiKey apiSecret baseUrl path (some []) now tr := by
  cases tr <;> exact ⟨rfl, rfl, rfl, rfl, rfl⟩

/-- Claim C10: any order type other than LIMIT and STOP (not only MARKET)
sends exactly the base keys plus timestamp and signature, ignoring the
price and stop-price arguments entirely; no type is rejected client-side. -/
theorem unrecognized_type_base_params (apiKey apiSecret baseUrl symbol side order_type : String)
    (quantity : Rat) (price stop_price : Option Rat) (now : Int) (tr : TransportResult)
    (hL : order_type ≠ "LIMIT") (hS : order_type ≠ "STOP") :
    keys (place_order apiKey apiSecret baseUrl symbol side order_type quantity price stop_price now tr).request.params =
      ["symbol", "side", "type", "quantity", "timestamp", "signature"] ∧
    dlookup (place_order apiKey apiSecret baseUrl symbol side order_type quantity price stop_price now tr).request.params "type" = some (PyVal.str order_type) ∧
    place_order apiKey apiSecret baseUrl symbol side order_type quantity price stop_price now tr =
      place_order apiKey apiSecret baseUrl symbol side order_type quantity Option.none Option.none now tr := by
  have hp : ∀ p sp, placeOrderParams symbol side order_type quantity p sp =
      [("symbol", PyVal.str symbol), ("side", PyVal.str side),
       ("type", PyVal.str order_type), ("quantity", PyVal.float quantity)] := by
    intro p sp
    simp [placeOrderParams, hL, hS]
  unfold place_order _post
  rw [hp price stop_price, hp Option.none Option.none]
  cases tr <;> exact ⟨by simp [dictSet, dlookup, keys], by simp [dictSet, dlookup], rfl⟩

/-- Claim C10 witness: the unrecognized type "FOO" with both prices
supplied still sends only the base keys. -/
theorem unrecognized_type_base_params_witness :
    (("FOO" : String) ≠ "LIMIT" ∧ ("FOO" : String) ≠ "STOP") ∧
    keys (place_order "k" "s" "https://b" "BTCUSDT" "BUY" "FOO" 1 (some 2) (some 3) 5 (TransportResult.response 200 (JSON.num 0))).request.params =
      ["symbol", "side", "type", "quantity", "timestamp", "signature"] :=
  ⟨⟨by decide, by decide⟩,
   (unrecognized_type_base_params "k" "s" "https://b" "BTCUSDT" "BUY" "FOO" 1 (some 2) (some 3) 5
     (TransportResult.response 200 (JSON.num 0)) (by decide) (by decide)).1⟩

/-- Claim C6 counterexample: two different parameter mappings — quantity
bound to the int 1 versus the string "1" — serialize to the same query
string and therefore receive the same signature, refuting "the signature
differs whenever P differs". -/
theorem sign_collision_counterexample :
    _sign "secret" [("quantity", PyVal.int 1)] = _sign "secret" [("quantity", PyVal.str "1")] ∧
    ([("quantity", PyVal.int 1)] : Dict) ≠ [("quantity", PyVal.str "1")] := by
  constructor
  · unfold _sign
    rw [show urlencode [("quantity", PyVal.int 1)] = urlencode [("quantity", PyVal.str "1")] from by decide]
  · decide

/-- Claim C6 amended: `_sign` is a deterministic function of (P, S) equal to
the lowercase hex HMAC-SHA256 digest (64 lowercase hex characters) of the
URL-encoded query string of P keyed by S, and it depends on P only through
that serialization — so equal serializations of distinct mappings collide. -/
theorem sign_deterministic_hex_serialization (apiSecret : String) (P P' : Dict) :
    (P = P' → _sign apiSecret P = _sign apiSecret P') ∧
    (urlencode P = urlencode P' → _sign apiSecret P = _sign apiSecret P') ∧
    (_sign apiSecret P).length = 64 ∧
    (∀ c ∈ (_sign apiSecret P).data, c ∈ hexDigits) ∧
    _sign apiSecret P = toHexLower (hmacSha256 (strBytes apiSecret) (strBytes (urlencode P))) := by
  refine ⟨fun h => by rw [h], fun h => by unfold _sign; rw [h], length_sign _ _, sign_chars_hex _ _, rfl⟩

/-- Claim C6 witness: the serialization-congruence and digest-length parts
evaluated on concrete mappings. -/
theorem sign_deterministic_hex_serialization_witness :
    (urlencode [("a", PyVal.int 1)] = urlencode [("a", PyVal.str "1")] ∧
     _sign "k" [("a", PyVal.int 1)] = _sign "k" [("a", PyVal.str "1")]) ∧
    (_sign "k" [("a", PyVal.int 1)]).length = 64 :=
  ⟨⟨by decide,
    (sign_deterministic_hex_serialization "k" [("a", PyVal.int 1)] [("a", PyVal.str "1")]).2.1 (by decide)⟩,
   (sign_deterministic_hex_serialization "k" [("a", PyVal.int 1)] [("a", PyVal.int 1)]).2.2.1⟩
